import Mathlib

/-!
Shallow embedding of the Obsidian heatmap component (`App.svelte` and the
plugin glue in `main.ts`) and verification of its layout and rendering
properties.

Modelling conventions:

* Dates are modelled at day granularity, as the data contract prescribes
  (`DataPoint.date` is a calendar day): a date is the integer number of days
  since the Unix epoch 1970-01-01, which was a Thursday, so JavaScript's
  `Date.getDay` (0 = Sunday .. 6 = Saturday) becomes `(d + 4) % 7`.
  Same-day comparison via `toDateString()` becomes equality of day numbers.
* Pixel quantities (width, cellSize, coordinates) are rationals; JavaScript
  number arithmetic on these values is exact in the relevant range.
* The d3 helpers the component calls (`timeMonday.floor`, `timeMonday.count`,
  `timeDays`, `scaleLinear(...).clamp(true)`) are embedded below following
  their documented semantics at day granularity.
* Colors are unrounded RGB triples of rationals; d3's `interpolateRgb`
  interpolates each channel linearly (gamma 1) and only rounds when
  formatting the output string, and rounding is monotone, so channel
  comparisons are faithfully reflected by the unrounded triples.
* `console.error`/`console.debug` failure reports are modelled as strings
  appended to a diagnostics list; success-path debug tracing is not
  modelled (no verified property mentions it).
* The year-legend, month-label and week-label text groups are not modelled:
  no verified property concerns them, and month labels would require a
  civil-calendar (year/month) embedding.  The rendered surface keeps the
  parts the properties inspect: the translation offset, the year total and
  the day cells.
-/

namespace Heatmap

/-- JavaScript `Date.getDay()`: 0 = Sunday, 1 = Monday, .., 6 = Saturday.
ℤ 0 (1970-01-01) was a Thursday, hence the offset 4. -/
def getDay (d : ℤ) : ℤ := (d + 4) % 7

/-- d3 `timeMonday.floor(d)`: the latest Monday on or before `d`. -/
def timeMondayFloor (d : ℤ) : ℤ := d - ((getDay d + 6) % 7)

/-- d3 `timeMonday.count(start, end)`: the number of Monday boundaries after
`start` and on or before `end`; d3 computes it as the floored difference of
the Monday-floors divided by one week. -/
def timeMondayCount (a b : ℤ) : ℤ := (timeMondayFloor b - timeMondayFloor a) / 7

/-- d3 `timeDays(start, stop)` at day granularity: every day `d` with
`start ≤ d < stop`, in ascending order (the stop day is excluded). -/
def timeDays (start stop : ℤ) : List ℤ :=
  (List.range (stop - start).toNat).map (fun (i : ℕ) => start + (i : ℤ))

/-- One activity observation: a calendar day and a non-negative count
(`HeatmapDataPoint` in `types.ts`). -/
structure HeatmapDataPoint where
  date : ℤ
  count : ℕ
deriving DecidableEq, Repr

/-- `const cellGap = 3` (px). -/
def cellGap : ℚ := 3

/-- `const dayCount = 7` (rows of the grid). -/
def dayCount : ℚ := 7

/-- An RGB color with unrounded rational channels `(r, g, b)`. -/
abbrev Rgb : Type := ℚ × ℚ × ℚ

/-- The green channel of a color. -/
def green (c : Rgb) : ℚ := c.2.1

/-- The empty-cell color `#ebedf0`. -/
def colorEmpty : Rgb := (235, 237, 240)

/-- The mid-ramp color `#7bc96f`. -/
def colorMid : Rgb := (123, 201, 111)

/-- The high-ramp color `#196127`. -/
def colorHigh : Rgb := (25, 97, 39)

/-- d3 `interpolateRgb` at gamma 1: each channel moves linearly from `a`
to `b` as `t` goes from 0 to 1. -/
def lerpRgb (a b : Rgb) (t : ℚ) : Rgb :=
  (a.1 + t * (b.1 - a.1), a.2.1 + t * (b.2.1 - a.2.1), a.2.2 + t * (b.2.2 - a.2.2))

/-- d3's `normalize(a, b)`: position of `x` inside `[a, b]`, or the constant
1/2 when the segment is degenerate (`b - a = 0`). -/
def normalizeD3 (a b x : ℚ) : ℚ := if b - a = 0 then 1/2 else (x - a) / (b - a)

/-- `Math.max(...dataPoints.map(d => d.count))` for a non-empty sequence of
natural-number counts (on the empty sequence JavaScript yields -Infinity;
the component never consults the scale with empty data, it aborts first). -/
def maxCount (dataPoints : List HeatmapDataPoint) : ℚ :=
  dataPoints.foldr (fun d m => max (d.count : ℚ) m) 0

/-- The reactive color scale: d3
`scaleLinear().domain([0, max(10, maxCount)/2, maxCount]).range([#ebedf0, #7bc96f, #196127]).clamp(true)`.
The input is clamped to the domain extent, the segment is chosen by
bisection (`x < d1` selects the first segment), and the matching color pair
is interpolated per channel.  Counts are natural numbers, so
`maxCount ≥ 0 = domain[0]` and d3's descending-domain branch is dead. -/
def colorScale (dataPoints : List HeatmapDataPoint) (x : ℚ) : Rgb :=
  let m := maxCount dataPoints
  let d1 := max 10 m / 2
  let lo := min 0 m
  let hi := max 0 m
  let xc := max lo (min hi x)
  if xc < d1 then lerpRgb colorEmpty colorMid (normalizeD3 0 d1 xc)
  else lerpRgb colorMid colorHigh (normalizeD3 d1 m xc)

/-- One per-day render record produced by the day-cell generator. -/
structure Cell where
  x : ℚ
  y : ℚ
  fill : Rgb
  date : ℤ
  count : ℕ
deriving DecidableEq, Repr

/-- The per-day record built inside `generateCellsSVG`'s `map`: `week` is
the Monday-week distance from `floor(startDate)` to `floor(date)`, `day`
re-bases Monday to row 0, the count comes from the first data point on the
same calendar day (`dataPoints.find`, 0 when none), and the fill is
`colorScale(count)`. -/
def cellFor (dataPoints : List HeatmapDataPoint) (cellSize : ℚ)
    (startDate : ℤ) (date : ℤ) : Cell :=
  let week := timeMondayCount (timeMondayFloor startDate) (timeMondayFloor date)
  let day := (getDay date + 6) % 7
  let dataPoint := dataPoints.find? (fun d => d.date == date)
  let count : ℕ := match dataPoint with
    | some d => d.count
    | none => 0
  { x := (week : ℚ) * (cellSize + cellGap)
    y := (day : ℚ) * (cellSize + cellGap)
    fill := colorScale dataPoints (count : ℚ)
    date := date
    count := count }

/-- `generateCellsSVG(startDate, endDate)`: one cell per day of
`timeDays(startDate, endDate)` (the d3 day range, which excludes the stop
day). -/
def generateCellsSVG (dataPoints : List HeatmapDataPoint) (cellSize : ℚ)
    (startDate endDate : ℤ) : List Cell :=
  (timeDays startDate endDate).map (cellFor dataPoints cellSize startDate)

/-- `timeMonday.count(timeMonday.floor(startDate), timeMonday.floor(endDate)) + 1`,
the number of week columns of the grid. -/
def weekCount (startDate endDate : ℤ) : ℤ :=
  timeMondayCount (timeMondayFloor startDate) (timeMondayFloor endDate) + 1

/-- The unclamped cell size
`(width - (weekCount - 1) * cellGap) / (weekCount + 2)`. -/
def cellSizeUnclamped (width : ℚ) (wc : ℤ) : ℚ :=
  (width - ((wc : ℚ) - 1) * cellGap) / ((wc : ℚ) + 2)

/-- The cell size actually used: the unclamped solution capped at 14px
(`Math.min(cellSize, 14)`). -/
def cellSizeOf (width : ℚ) (wc : ℤ) : ℚ :=
  min (cellSizeUnclamped width wc) 14

/-- The drawable content the renderer places inside the `svg` element: one
group translated by `(0, margin.top)` holding the year total and the day
cells (the label text groups are not modelled, see the file header). -/
structure RenderedSvg where
  marginTop : ℚ
  yearCount : ℕ
  cells : List Cell
deriving DecidableEq, Repr

/-- The component's instance state: the four props, the computed `cellSize`
and `height`, the children of the `svg` element (`none` = empty), and the
diagnostics (console failure reports). -/
structure HeatmapState where
  dataPoints : List HeatmapDataPoint
  width : ℚ
  fontColor : String
  fontSize : ℚ
  cellSize : ℚ
  height : ℚ
  svg : Option RenderedSvg
  diag : List String
deriving DecidableEq, Repr

/-- `generateSVG()`: first clears the `svg` element (`svgRef.innerHTML = ""`),
then aborts with a `console.error` report when the data-point sequence is
empty; otherwise takes the first/last dates as the range, derives
`weekCount`, `cellSize`, `margin.top` and `height`, and appends the single
translated group with the year total and the day cells. -/
def generateSVG (s : HeatmapState) : HeatmapState :=
  match s.dataPoints with
  | [] => { s with svg := none, diag := s.diag ++ ["Heatmap no data available"] }
  | d0 :: rest =>
    let startDate := d0.date
    let endDate := (rest.getLastD d0).date
    let wc := weekCount startDate endDate
    let cellSize := cellSizeOf s.width wc
    let marginTop := cellSize * 3.5
    let height := (dayCount + 3.5 + 2) * cellSize + (dayCount - 1) * cellGap
    let yearCount := (d0 :: rest).foldl (fun sum d => sum + d.count) 0
    { s with
      cellSize := cellSize
      height := height
      svg := some { marginTop := marginTop
                    yearCount := yearCount
                    cells := generateCellsSVG (d0 :: rest) cellSize startDate endDate } }

/-- `refreshSVG(newDataPoints, newWidth, newFontColor, newFontSize)`: rejects
a non-positive width with a `console.debug` report and leaves every field
(and the rendered surface) untouched; otherwise stores the four props and
re-runs `generateSVG`. -/
def refreshSVG (s : HeatmapState) (newDataPoints : List HeatmapDataPoint)
    (newWidth : ℚ) (newFontColor : String) (newFontSize : ℚ) : HeatmapState :=
  if newWidth ≤ 0 then
    { s with diag := s.diag ++ ["newWidth illegal!"] }
  else
    generateSVG { s with
      dataPoints := newDataPoints
      width := newWidth
      fontColor := newFontColor
      fontSize := newFontSize }

/-- The horizontal and vertical placement computed by `tooltip.show`. -/
structure TooltipPos where
  left : ℚ
  top : ℚ
deriving DecidableEq, Repr

/-- `tooltip.show(content, cellX, cellY)` placement: the anchor is taken
relative to the svg bounding box; when the centered tooltip would cross the
left edge it is pinned at `tooltipWidth / 2`, else when it would cross the
right edge it is pinned at `svgWidth - tooltipWidth / 2`; the vertical
position sits above the anchor by the tooltip height plus the cell gap
minus one. -/
def tooltipShowPos (cellX cellY svgX svgY svgWidth tooltipWidth tooltipHeight : ℚ) :
    TooltipPos :=
  let adjustedX := cellX - svgX
  let isNearLeftEdge := adjustedX - tooltipWidth / 2 < 0
  let isNearRightEdge := adjustedX + tooltipWidth / 2 > svgWidth
  let left :=
    if isNearLeftEdge then tooltipWidth / 2
    else if isNearRightEdge then svgWidth - tooltipWidth / 2
    else adjustedX
  let top := cellY - svgY - tooltipHeight - cellGap + 1
  { left := left, top := top }

/-- A day is a Monday when JavaScript's `getDay` yields 1. -/
def isMonday (d : ℤ) : Prop := getDay d = 1

instance (d : ℤ) : Decidable (isMonday d) := by
  unfold isMonday
  infer_instance

/-- Modelled from the spec's words (P1): the number of Monday boundaries
strictly between `a` and `b`, i.e. Mondays in the open interval `(a, b)`.
Stated for comparison with the resolver's `weekCount`. -/
def mondaysStrictlyBetween (a b : ℤ) : ℕ :=
  ((Finset.Ioo a b).filter (fun d => isMonday d)).card

/-- The number of Mondays in the half-open interval `(a, b]`, the counting
semantics of d3's `timeMonday.count`. -/
def mondaysAfterUpTo (a b : ℤ) : ℕ :=
  ((Finset.Ioc a b).filter (fun d => isMonday d)).card

lemma timeMondayFloor_mono {s e : ℤ} (h : s ≤ e) :
    timeMondayFloor s ≤ timeMondayFloor e := by
  unfold timeMondayFloor getDay
  omega

lemma timeMondayFloor_idem (d : ℤ) :
    timeMondayFloor (timeMondayFloor d) = timeMondayFloor d := by
  unfold timeMondayFloor getDay
  omega

lemma isMonday_timeMondayFloor (d : ℤ) : isMonday (timeMondayFloor d) := by
  unfold isMonday timeMondayFloor getDay
  omega

lemma one_le_weekCount {s e : ℤ} (h : s ≤ e) : 1 ≤ weekCount s e := by
  unfold weekCount timeMondayCount timeMondayFloor getDay
  omega

lemma maxCount_nonneg (dp : List HeatmapDataPoint) : 0 ≤ maxCount dp := by
  induction dp with
  | nil => simp [maxCount]
  | cons d t ih =>
      simp only [maxCount, List.foldr_cons] at ih ⊢
      exact le_max_of_le_right ih

/-- The Mondays in a one-week window right after a Monday form exactly the
singleton of its end point. -/
lemma mondays_Ioc_week (m : ℤ) (hm : isMonday m) :
    (Finset.Ioc m (m + 7)).filter (fun d => isMonday d) = {m + 7} := by
  simp only [isMonday, getDay] at hm
  ext x
  simp only [Finset.mem_filter, Finset.mem_Ioc, Finset.mem_singleton, isMonday, getDay]
  omega

/-- Counting Mondays in `(a, a + 7k]` for a Monday `a` gives `k`. -/
lemma mondays_Ioc_count (a : ℤ) (ha : isMonday a) (k : ℕ) :
    ((Finset.Ioc a (a + 7 * (k : ℤ))).filter (fun d => isMonday d)).card = k := by
  induction k with
  | zero => simp
  | succ n ih =>
      have h1 : a ≤ a + 7 * (n : ℤ) := by omega
      have h2 : a + 7 * (n : ℤ) ≤ a + 7 * (n : ℤ) + 7 := by omega
      have hsplit : Finset.Ioc a (a + 7 * ((n + 1 : ℕ) : ℤ)) =
          Finset.Ioc a (a + 7 * (n : ℤ)) ∪
            Finset.Ioc (a + 7 * (n : ℤ)) (a + 7 * (n : ℤ) + 7) := by
        rw [Finset.Ioc_union_Ioc_eq_Ioc h1 h2]
        congr 1
        push_cast
        ring
      have hmn : isMonday (a + 7 * (n : ℤ)) := by
        simp only [isMonday, getDay] at ha ⊢
        omega
      have hdisj : Disjoint (Finset.Ioc a (a + 7 * (n : ℤ)))
          (Finset.Ioc (a + 7 * (n : ℤ)) (a + 7 * (n : ℤ) + 7)) := by
        rw [Finset.disjoint_left]
        intro x hx1 hx2
        simp only [Finset.mem_Ioc] at hx1 hx2
        omega
      rw [hsplit, Finset.filter_union,
        Finset.card_union_of_disjoint (Finset.disjoint_filter_filter hdisj), ih,
        mondays_Ioc_week _ hmn, Finset.card_singleton]

/-- `List.find?` on a list split around its first satisfying element
returns exactly that element. -/
lemma find?_append_first {α : Type} (p : α → Bool) (l1 l2 : List α) (x : α)
    (hl1 : ∀ q ∈ l1, ¬ p q = true) (hx : p x = true) :
    (l1 ++ x :: l2).find? p = some x := by
  induction l1 with
  | nil => simpa using List.find?_cons_of_pos _ hx
  | cons q t ih =>
      have hq : ¬ p q = true := hl1 q (by simp)
      simp only [List.cons_append, List.find?_cons_of_neg _ (by simpa using hq)]
      exact ih (fun r hr => hl1 r (by simp [hr]))

/-- The date stored in a generated cell is the day it was built for. -/
lemma cellFor_date (dp : List HeatmapDataPoint) (cs : ℚ) (s d : ℤ) :
    (cellFor dp cs s d).date = d := rfl

/-- The dates of the generated cells are exactly `timeDays startDate endDate`. -/
lemma generateCells_map_date (dp : List HeatmapDataPoint) (cs : ℚ) (s e : ℤ) :
    (generateCellsSVG dp cs s e).map Cell.date = timeDays s e := by
  unfold generateCellsSVG
  rw [List.map_map]
  have hcomp : Cell.date ∘ cellFor dp cs s = id := funext fun d => rfl
  rw [hcomp, List.map_id]

lemma timeDays_nodup (s e : ℤ) : (timeDays s e).Nodup := by
  unfold timeDays
  have hinj : Function.Injective (fun i : ℕ => s + (i : ℤ)) := by
    intro a b h
    simpa using h
  exact (List.nodup_range _).map hinj

lemma mem_timeDays {s e d : ℤ} : d ∈ timeDays s e ↔ s ≤ d ∧ d < e := by
  unfold timeDays
  simp only [List.mem_map, List.mem_range]
  constructor
  · rintro ⟨i, hi, rfl⟩
    omega
  · rintro ⟨h1, h2⟩
    exact ⟨(d - s).toNat, by omega, by omega⟩

/-- The example range 2024-01-01 (day 19723) .. 2024-01-08 (day 19730)
spans two Monday-aligned weeks. -/
lemma weekCount_sample : weekCount 19723 19730 = 2 := by decide


/-- The green channel of the empty-to-mid ramp at parameter `t`. -/
lemma green_lerpEM (t : ℚ) : green (lerpRgb colorEmpty colorMid t) = 237 - 36 * t := by
  simp only [green, lerpRgb, colorEmpty, colorMid]
  norm_num
  ring

/-- The green channel of the mid-to-high ramp at parameter `t`. -/
lemma green_lerpMH (t : ℚ) : green (lerpRgb colorMid colorHigh t) = 201 - 104 * t := by
  simp only [green, lerpRgb, colorMid, colorHigh]
  norm_num
  ring

/-- Inside the domain, the clamp is the identity and the scale reduces to
the two-segment interpolation chosen by `x < domain midpoint`. -/
lemma colorScale_at (dp : List HeatmapDataPoint) (x : ℚ)
    (hx0 : 0 ≤ x) (hxm : x ≤ maxCount dp) :
    colorScale dp x =
      if x < max 10 (maxCount dp) / 2
      then lerpRgb colorEmpty colorMid (x / (max 10 (maxCount dp) / 2))
      else lerpRgb colorMid colorHigh
        (normalizeD3 (max 10 (maxCount dp) / 2) (maxCount dp) x) := by
  have hm := maxCount_nonneg dp
  have h10 : (10 : ℚ) ≤ max 10 (maxCount dp) := le_max_left _ _
  have hd1 : (0 : ℚ) < max 10 (maxCount dp) / 2 := by linarith
  have hclamp : max (min 0 (maxCount dp)) (min (max 0 (maxCount dp)) x) = x := by
    rw [min_eq_left hm, max_eq_right hm, min_eq_right hxm, max_eq_right hx0]
  simp only [colorScale, hclamp]
  have hn : normalizeD3 0 (max 10 (maxCount dp) / 2) x
      = x / (max 10 (maxCount dp) / 2) := by
    rw [normalizeD3, if_neg (by linarith)]
    ring_nf
  rw [hn]

/-- The horizontal tooltip position as a closed conditional. -/
lemma tooltipShowPos_left (cellX cellY svgX svgY svgWidth tw th : ℚ) :
    (tooltipShowPos cellX cellY svgX svgY svgWidth tw th).left =
      if cellX - svgX - tw / 2 < 0 then tw / 2
      else if cellX - svgX + tw / 2 > svgWidth then svgWidth - tw / 2
      else cellX - svgX := rfl

/-- C2 (amended): on an empty data-point sequence the render aborts without
recomputing any geometry or producing cells, but only after the surface has
already been cleared: afterwards the svg is empty, every other field of the
state is unchanged, and the failure is reported via the diagnostic channel. -/
theorem generateSVG_empty_aborts_after_clear (s : HeatmapState)
    (h : s.dataPoints = []) :
    generateSVG s =
      { s with svg := none, diag := s.diag ++ ["Heatmap no data available"] } := by
  unfold generateSVG
  rw [h]

/-- C2 counterexample: with empty data and a previously rendered surface,
the drawable content after the call differs from the content before it
(the surface is cleared), refuting the no-mutation claim. -/
theorem generateSVG_empty_clears_surface :
    (generateSVG ⟨[], 888, "#666", 14, 14, 0, some ⟨0, 5, []⟩, []⟩).svg ≠
      some ⟨0, 5, []⟩ := by decide

/-- C2 witness: the amended statement evaluated at a concrete state. -/
theorem generateSVG_empty_aborts_after_clear_witness :
    generateSVG ⟨[], 888, "#666", 14, 14, 0, some ⟨0, 5, []⟩, []⟩ =
      ⟨[], 888, "#666", 14, 14, 0, none, ["Heatmap no data available"]⟩ :=
  generateSVG_empty_aborts_after_clear _ rfl

/-- C7: a refresh with non-positive width is rejected: the stored props,
the previously computed geometry (cellSize, height) and the rendered
surface are all retained, no re-render happens, and the failure is
reported via the diagnostic channel. -/
theorem refreshSVG_rejects_nonpositive_width (s : HeatmapState)
    (ndp : List HeatmapDataPoint) (nW : ℚ) (nfc : String) (nfs : ℚ)
    (h : nW ≤ 0) :
    refreshSVG s ndp nW nfc nfs =
      { s with diag := s.diag ++ ["newWidth illegal!"] } := by
  unfold refreshSVG
  rw [if_pos h]

/-- C7 witness: a rejected refresh at a concrete state keeps every field. -/
theorem refreshSVG_rejects_nonpositive_width_witness :
    refreshSVG ⟨[⟨19723, 1⟩], 888, "#666", 14, 14, 100, some ⟨49, 1, []⟩, []⟩
        [] 0 "#fff" 10 =
      ⟨[⟨19723, 1⟩], 888, "#666", 14, 14, 100, some ⟨49, 1, []⟩,
        ["newWidth illegal!"]⟩ :=
  refreshSVG_rejects_nonpositive_width _ _ _ _ _ (by norm_num)

/-- C3: with a non-empty ordered data range, the computed cell size solves
`cellSize × (N+2) + 3 × (N−1) = W` exactly whenever the unclamped solution
is at most 14, and equals exactly 14 whenever the unclamped solution
exceeds 14. -/
theorem cellSize_equation (W : ℚ) (s e : ℤ) (hse : s ≤ e) :
    (cellSizeUnclamped W (weekCount s e) ≤ 14 →
      cellSizeOf W (weekCount s e) * ((weekCount s e : ℚ) + 2)
        + 3 * ((weekCount s e : ℚ) - 1) = W) ∧
    (14 < cellSizeUnclamped W (weekCount s e) →
      cellSizeOf W (weekCount s e) = 14) := by
  have hN := one_le_weekCount hse
  have hNq : (1 : ℚ) ≤ (weekCount s e : ℚ) := by exact_mod_cast hN
  have hden : ((weekCount s e : ℚ) + 2) ≠ 0 := by linarith
  constructor
  · intro hle
    rw [cellSizeOf, min_eq_left hle]
    unfold cellSizeUnclamped cellGap
    rw [div_mul_cancel₀ _ hden]
    ring
  · intro hgt
    rw [cellSizeOf, min_eq_right (le_of_lt hgt)]

/-- C3 witness: the equation branch at width 40 and the cap branch at
width 200, both over the two-week range 2024-01-01 .. 2024-01-08. -/
theorem cellSize_equation_witness :
    cellSizeOf 40 (weekCount 19723 19730) * ((weekCount 19723 19730 : ℚ) + 2)
        + 3 * ((weekCount 19723 19730 : ℚ) - 1) = 40 ∧
    cellSizeOf 200 (weekCount 19723 19730) = 14 :=
  ⟨(cellSize_equation 40 19723 19730 (by decide)).1
      (by rw [weekCount_sample]; norm_num [cellSizeUnclamped, cellGap]),
   (cellSize_equation 200 19723 19730 (by decide)).2
      (by rw [weekCount_sample]; norm_num [cellSizeUnclamped, cellGap])⟩

/-- C9 (amended): with a non-empty ordered data range and positive width,
the computed cell size never exceeds 14, and it is positive exactly when
`cellGap × (weekCount − 1) < width`: for every narrower positive width the
unclamped solution (and hence the cell size) is non-positive. -/
theorem cellSize_bounds (W : ℚ) (s e : ℤ) (hse : s ≤ e) (hW : 0 < W) :
    cellSizeOf W (weekCount s e) ≤ 14 ∧
    (cellGap * ((weekCount s e : ℚ) - 1) < W → 0 < cellSizeOf W (weekCount s e)) ∧
    (W ≤ cellGap * ((weekCount s e : ℚ) - 1) → cellSizeOf W (weekCount s e) ≤ 0) := by
  have hN := one_le_weekCount hse
  have hNq : (1 : ℚ) ≤ (weekCount s e : ℚ) := by exact_mod_cast hN
  refine ⟨min_le_right _ _, fun hlt => ?_, fun hge => ?_⟩
  · refine lt_min ?_ (by norm_num)
    unfold cellGap at hlt
    unfold cellSizeUnclamped cellGap
    apply div_pos
    · linarith
    · linarith
  · unfold cellGap at hge
    have hun : cellSizeUnclamped W (weekCount s e) ≤ 0 := by
      unfold cellSizeUnclamped cellGap
      exact div_nonpos_iff.mpr (Or.inr ⟨by linarith, by linarith⟩)
    exact le_trans (min_le_left _ _) hun

/-- C9 counterexample: a render with positive width 1 and a two-week data
range computes cellSize = −1/2, refuting `0 < cellSize`. -/
theorem cellSize_nonpositive_on_narrow_width :
    ¬ (0 < (generateSVG ⟨[⟨19723, 0⟩, ⟨19730, 0⟩], 1, "#666", 14, 14, 0,
        none, []⟩).cellSize) := by
  have h : (generateSVG ⟨[⟨19723, 0⟩, ⟨19730, 0⟩], 1, "#666", 14, 14, 0,
      none, []⟩).cellSize = cellSizeOf 1 (weekCount 19723 19730) := rfl
  rw [h, weekCount_sample]
  norm_num [cellSizeOf, cellSizeUnclamped, cellGap, min_def]

/-- C9 witness: the amended bounds over a two-week range — the cap and
positivity at width 200, and non-positivity at the narrow width 1. -/
theorem cellSize_bounds_witness :
    cellSizeOf 200 (weekCount 19723 19730) ≤ 14 ∧
    0 < cellSizeOf 200 (weekCount 19723 19730) ∧
    cellSizeOf 1 (weekCount 19723 19730) ≤ 0 :=
  ⟨(cellSize_bounds 200 19723 19730 (by decide) (by norm_num)).1,
   (cellSize_bounds 200 19723 19730 (by decide) (by norm_num)).2.1
      (by rw [weekCount_sample]; norm_num [cellGap]),
   (cellSize_bounds 1 19723 19730 (by decide) (by norm_num)).2.2
      (by rw [weekCount_sample]; norm_num [cellGap])⟩

/-- C6: the tooltip's horizontal placement, with the edge checks ordered as
in the source: pinned to `tooltipWidth/2` when the centered tooltip would
cross the left edge, else pinned to `surfaceWidth − tooltipWidth/2` when it
would cross the right edge, else centered on the anchor relative to the
surface. -/
theorem tooltip_show_clamping (cellX cellY svgX svgY svgWidth tw th : ℚ) :
    (cellX - svgX - tw / 2 < 0 →
      (tooltipShowPos cellX cellY svgX svgY svgWidth tw th).left = tw / 2) ∧
    (¬(cellX - svgX - tw / 2 < 0) → cellX - svgX + tw / 2 > svgWidth →
      (tooltipShowPos cellX cellY svgX svgY svgWidth tw th).left = svgWidth - tw / 2) ∧
    (¬(cellX - svgX - tw / 2 < 0) → ¬(cellX - svgX + tw / 2 > svgWidth) →
      (tooltipShowPos cellX cellY svgX svgY svgWidth tw th).left = cellX - svgX) := by
  refine ⟨fun h1 => ?_, fun h1 h2 => ?_, fun h1 h2 => ?_⟩
  · rw [tooltipShowPos_left, if_pos h1]
  · rw [tooltipShowPos_left, if_neg h1, if_pos h2]
  · rw [tooltipShowPos_left, if_neg h1, if_neg h2]

/-- C6 witness: the three branches at concrete anchors on a 100px surface
with a 40px tooltip. -/
theorem tooltip_show_clamping_witness :
    (tooltipShowPos 5 0 0 0 100 40 10).left = 40 / 2 ∧
    (tooltipShowPos 95 0 0 0 100 40 10).left = 100 - 40 / 2 ∧
    (tooltipShowPos 50 0 0 0 100 40 10).left = 50 - 0 :=
  ⟨(tooltip_show_clamping 5 0 0 0 100 40 10).1 (by norm_num),
   (tooltip_show_clamping 95 0 0 0 100 40 10).2.1 (by norm_num) (by norm_num),
   (tooltip_show_clamping 50 0 0 0 100 40 10).2.2 (by norm_num) (by norm_num)⟩

/-- C10: when the tooltip is wider than the surface and the centered
tooltip would overflow both edges, the left-edge clamp takes priority: the
position is `tooltipWidth/2` and never `surfaceWidth − tooltipWidth/2`. -/
theorem tooltip_left_clamp_priority (cellX cellY svgX svgY svgWidth tw th : ℚ)
    (hwide : svgWidth < tw)
    (hL : cellX - svgX - tw / 2 < 0) (hR : cellX - svgX + tw / 2 > svgWidth) :
    (tooltipShowPos cellX cellY svgX svgY svgWidth tw th).left = tw / 2 ∧
    (tooltipShowPos cellX cellY svgX svgY svgWidth tw th).left ≠ svgWidth - tw / 2 := by
  have hleft : (tooltipShowPos cellX cellY svgX svgY svgWidth tw th).left = tw / 2 := by
    rw [tooltipShowPos_left, if_pos hL]
  refine ⟨hleft, ?_⟩
  rw [hleft]
  intro heq
  have hwe : svgWidth = tw := by linarith
  linarith

/-- C10 witness: a 20px tooltip on a 10px surface anchored at 5 is pinned
to the left clamp position 10. -/
theorem tooltip_left_clamp_priority_witness :
    (tooltipShowPos 5 0 0 0 10 20 10).left = 20 / 2 ∧
    (tooltipShowPos 5 0 0 0 10 20 10).left ≠ 10 - 20 / 2 :=
  tooltip_left_clamp_priority 5 0 0 0 10 20 10 (by norm_num) (by norm_num) (by norm_num)

/-- C4 counterexample: at the claim's own example (start 2024-01-01, end
2024-01-15) the resolver computes weekCount 3, while the number of Monday
boundaries strictly between the two Monday-floors (only 2024-01-08) plus
one is 2. -/
theorem weekCount_not_strictly_between :
    weekCount 19723 19737 ≠
      (mondaysStrictlyBetween (timeMondayFloor 19723) (timeMondayFloor 19737) : ℤ) + 1 := by
  decide

/-- C4 (amended): for an ordered date pair, the resolver's weekCount equals
the number of Monday boundaries after the Monday-floor of the start date
and up to (including) the Monday-floor of the end date, plus one. -/
theorem weekCount_monday_boundaries (s e : ℤ) (hse : s ≤ e) :
    weekCount s e =
      (mondaysAfterUpTo (timeMondayFloor s) (timeMondayFloor e) : ℤ) + 1 := by
  have hm : isMonday (timeMondayFloor s) := isMonday_timeMondayFloor s
  have hmono := timeMondayFloor_mono hse
  have hdvd : (7 : ℤ) ∣ (timeMondayFloor e - timeMondayFloor s) := by
    unfold timeMondayFloor getDay
    omega
  obtain ⟨k, hk⟩ : ∃ k : ℕ, timeMondayFloor e = timeMondayFloor s + 7 * (k : ℤ) := by
    obtain ⟨c, hc⟩ := hdvd
    exact ⟨c.toNat, by omega⟩
  unfold mondaysAfterUpTo
  rw [hk, mondays_Ioc_count _ hm k]
  unfold weekCount timeMondayCount
  rw [timeMondayFloor_idem, timeMondayFloor_idem, hk]
  omega

/-- C4 witness: the boundary-count identity evaluated at the example pair
2024-01-01 .. 2024-01-15. -/
theorem weekCount_monday_boundaries_witness :
    weekCount 19723 19737 =
      (mondaysAfterUpTo (timeMondayFloor 19723) (timeMondayFloor 19737) : ℤ) + 1 :=
  weekCount_monday_boundaries 19723 19737 (by decide)

/-- C1 (amended): over the range taken from the first and last data point,
the day-cell generator emits exactly one cell per calendar day of the
half-open interval `[startDate, endDate)` (the end day is excluded), and
each cell sits at `x = weekIndex × (cellSize + cellGap)`,
`y = dayIndex × (cellSize + cellGap)` with `weekIndex` the Monday-week
distance from `floor(startDate)` to `floor(day)` and
`dayIndex = (weekday + 6) mod 7`. -/
theorem generateCells_day_coverage (d0 : HeatmapDataPoint)
    (rest : List HeatmapDataPoint) (cs : ℚ) :
    ((generateCellsSVG (d0 :: rest) cs d0.date (rest.getLastD d0).date).map Cell.date).Nodup ∧
    (∀ d : ℤ,
      d ∈ (generateCellsSVG (d0 :: rest) cs d0.date (rest.getLastD d0).date).map Cell.date ↔
        d0.date ≤ d ∧ d < (rest.getLastD d0).date) ∧
    (∀ c ∈ generateCellsSVG (d0 :: rest) cs d0.date (rest.getLastD d0).date,
      c.x = (timeMondayCount (timeMondayFloor d0.date) (timeMondayFloor c.date) : ℚ)
          * (cs + cellGap) ∧
      c.y = (((getDay c.date + 6) % 7 : ℤ) : ℚ) * (cs + cellGap)) := by
  refine ⟨?_, ?_, ?_⟩
  · rw [generateCells_map_date]
    exact timeDays_nodup _ _
  · intro d
    rw [generateCells_map_date]
    exact mem_timeDays
  · intro c hc
    unfold generateCellsSVG at hc
    obtain ⟨d, hd, rfl⟩ := List.mem_map.mp hc
    exact ⟨rfl, rfl⟩

/-- C1 counterexample: for the data points on 2024-01-01 and 2024-01-02 the
end date 2024-01-02 lies in the claimed inclusive range, yet no cell is
generated for it (`timeDays` excludes the stop day). -/
theorem generateCells_end_day_missing :
    ¬ ∃ c ∈ generateCellsSVG [⟨19723, 1⟩, ⟨19724, 2⟩]
        (cellSizeOf 888 (weekCount 19723 19724)) 19723 19724, c.date = 19724 := by
  decide

/-- C1 witness: day 2024-01-01 of the half-open range receives a cell. -/
theorem generateCells_day_coverage_witness :
    (19723 : ℤ) ∈
      (generateCellsSVG [⟨19723, 1⟩, ⟨19724, 2⟩] 14 19723 19724).map Cell.date :=
  ((generateCells_day_coverage ⟨19723, 1⟩ [⟨19724, 2⟩] 14).2.1 19723).mpr (by decide)

/-- The count stored in a generated cell comes from `List.find?` over the
data points. -/
lemma cellFor_count (dp : List HeatmapDataPoint) (cs : ℚ) (s d : ℤ) :
    (cellFor dp cs s d).count =
      (match dp.find? (fun q => q.date == d) with
        | some p => p.count
        | none => 0) := rfl

/-- The fill of a generated cell is the color scale applied to its count. -/
lemma cellFor_fill (dp : List HeatmapDataPoint) (cs : ℚ) (s d : ℤ) :
    (cellFor dp cs s d).fill = colorScale dp ((cellFor dp cs s d).count : ℚ) := rfl

/-- C8: a rendered day with no matching data point (same-day comparison)
gets count 0 and fill `colorScale(0)` — a defined fallback — and when
several data points share the day, the first match in the sequence is the
one used. -/
theorem generateCells_missing_day_default (d0 : HeatmapDataPoint)
    (rest : List HeatmapDataPoint) (cs : ℚ) (s e : ℤ) :
    ∀ c ∈ generateCellsSVG (d0 :: rest) cs s e,
      ((∀ p ∈ d0 :: rest, p.date ≠ c.date) →
        c.count = 0 ∧ c.fill = colorScale (d0 :: rest) 0) ∧
      (∀ (l1 l2 : List HeatmapDataPoint) (p : HeatmapDataPoint),
        d0 :: rest = l1 ++ p :: l2 → p.date = c.date →
        (∀ q ∈ l1, q.date ≠ c.date) → c.count = p.count) := by
  intro c hc
  unfold generateCellsSVG at hc
  obtain ⟨d, hd, rfl⟩ := List.mem_map.mp hc
  constructor
  · intro hnone
    have hfind : (d0 :: rest).find? (fun q => q.date == d) = none :=
      List.find?_eq_none.mpr fun p hp => by
        simpa [cellFor_date] using hnone p hp
    constructor
    · rw [cellFor_count, hfind]
    · rw [cellFor_fill, cellFor_count, hfind]
      norm_num
  · intro l1 l2 p heq hpd hl1
    have hfind : (d0 :: rest).find? (fun q => q.date == d) = some p := by
      rw [heq]
      apply find?_append_first
      · intro q hq
        simpa [cellFor_date] using hl1 q hq
      · simpa [cellFor_date] using hpd
    rw [cellFor_count, hfind]

/-- C8 witness: with a single data point on 2024-01-01 and the range
2024-01-01 .. 2024-01-03, the cell of the dataless day 2024-01-02 carries
count 0 and the empty color. -/
theorem generateCells_missing_day_default_witness :
    (cellFor [⟨19723, 1⟩] 14 19723 19724).count = 0 ∧
    (cellFor [⟨19723, 1⟩] 14 19723 19724).fill = colorScale [⟨19723, 1⟩] 0 :=
  (generateCells_missing_day_default ⟨19723, 1⟩ [] 14 19723 19725
      (cellFor [⟨19723, 1⟩] 14 19723 19724)
      (List.mem_map_of_mem _ (by decide))).1 (by decide)

/-- C5 (amended): over a non-empty data sequence the color scale's green
channel is monotonically non-increasing on `[0, maxCount]` (the ramp runs
237 -> 201 -> 97), and `colorScale(0)` always equals the empty-cell color
`#ebedf0` regardless of the data. -/
theorem colorScale_green_antitone (dp : List HeatmapDataPoint) (hdp : dp ≠ [])
    (a b : ℚ) (ha : 0 ≤ a) (hab : a < b) (hb : b ≤ maxCount dp) :
    green (colorScale dp b) ≤ green (colorScale dp a) ∧
    colorScale dp 0 = colorEmpty := by
  have hm := maxCount_nonneg dp
  have h10 : (10 : ℚ) ≤ max 10 (maxCount dp) := le_max_left _ _
  have hd1 : (0 : ℚ) < max 10 (maxCount dp) / 2 := by linarith
  have ha' : a ≤ maxCount dp := le_trans (le_of_lt hab) hb
  have hb0 : (0 : ℚ) ≤ b := le_trans ha (le_of_lt hab)
  constructor
  · rw [colorScale_at dp a ha ha', colorScale_at dp b hb0 hb]
    rcases lt_or_le b (max 10 (maxCount dp) / 2) with hbd | hbd
    · have had : a < max 10 (maxCount dp) / 2 := lt_trans hab hbd
      rw [if_pos hbd, if_pos had, green_lerpEM, green_lerpEM]
      have hdiv : a / (max 10 (maxCount dp) / 2) ≤ b / (max 10 (maxCount dp) / 2) :=
        (div_le_div_iff_of_pos_right hd1).mpr (le_of_lt hab)
      linarith
    · rw [if_neg (not_lt.mpr hbd)]
      rcases lt_or_le a (max 10 (maxCount dp) / 2) with had | had
      · rw [if_pos had, green_lerpEM]
        have hga : a / (max 10 (maxCount dp) / 2) ≤ 1 := by
          rw [div_le_one hd1]
          exact le_of_lt had
        rw [normalizeD3]
        by_cases hmd : maxCount dp - max 10 (maxCount dp) / 2 = 0
        · rw [if_pos hmd, green_lerpMH]
          linarith
        · rw [if_neg hmd, green_lerpMH]
          have hmd' : max 10 (maxCount dp) / 2 < maxCount dp := by
            have hne := sub_ne_zero.mp hmd
            have hle : max 10 (maxCount dp) / 2 ≤ maxCount dp := le_trans hbd hb
            exact lt_of_le_of_ne hle (Ne.symm hne)
          have ht : 0 ≤ (b - max 10 (maxCount dp) / 2) /
              (maxCount dp - max 10 (maxCount dp) / 2) :=
            div_nonneg (by linarith) (by linarith)
          linarith
      · rw [if_neg (not_lt.mpr had)]
        simp only [normalizeD3]
        by_cases hmd : maxCount dp - max 10 (maxCount dp) / 2 = 0
        · rw [if_pos hmd, if_pos hmd]
        · rw [if_neg hmd, if_neg hmd, green_lerpMH, green_lerpMH]
          have hle : max 10 (maxCount dp) / 2 ≤ maxCount dp := le_trans had ha'
          have hne := sub_ne_zero.mp hmd
          have hmd' : (0:ℚ) < maxCount dp - max 10 (maxCount dp) / 2 := by
            have := lt_of_le_of_ne hle (Ne.symm hne)
            linarith
          have hdiv : (a - max 10 (maxCount dp) / 2) /
                (maxCount dp - max 10 (maxCount dp) / 2) ≤
              (b - max 10 (maxCount dp) / 2) /
                (maxCount dp - max 10 (maxCount dp) / 2) :=
            (div_le_div_iff_of_pos_right hmd').mpr (by linarith)
          linarith
  · rw [colorScale_at dp 0 le_rfl hm, if_pos hd1, zero_div]
    simp [lerpRgb, colorEmpty, colorMid]

end Heatmap

namespace Heatmap

/-- C5 counterexample: with a single data point of count 20, the green
channel at count 20 (the high color, 97) is smaller than at count 0 (the
empty color, 237), refuting the claimed non-decreasing ramp. -/
theorem colorScale_green_not_monotone :
    ¬ (green (colorScale [⟨19723, 20⟩] 0) ≤ green (colorScale [⟨19723, 20⟩] 20)) := by
  have hmc : maxCount [⟨19723, 20⟩] = 20 := by
    norm_num [maxCount]
  have h0 : colorScale [⟨19723, 20⟩] 0 = colorEmpty := by
    rw [colorScale_at _ 0 le_rfl (by rw [hmc]; norm_num), if_pos (by rw [hmc]; norm_num),
      zero_div]
    simp [lerpRgb, colorEmpty, colorMid]
  have h20 : colorScale [⟨19723, 20⟩] 20 = colorHigh := by
    rw [colorScale_at _ 20 (by norm_num) (by rw [hmc]), hmc]
    rw [if_neg (by norm_num)]
    rw [normalizeD3, if_neg (by norm_num)]
    norm_num
    simp [lerpRgb, colorMid, colorHigh]
  rw [h0, h20]
  norm_num [green, colorEmpty, colorHigh]

/-- C5 witness: the non-increasing ramp and the fixed empty color with a
single count-20 data point, at counts 3 < 7. -/
theorem colorScale_green_antitone_witness :
    green (colorScale [⟨19723, 20⟩] 7) ≤ green (colorScale [⟨19723, 20⟩] 3) ∧
    colorScale [⟨19723, 20⟩] 0 = colorEmpty :=
  colorScale_green_antitone [⟨19723, 20⟩] (by decide) 3 7 (by norm_num) (by norm_num)
    (by norm_num [maxCount])

end Heatmap
